import Mathlib

set_option maxRecDepth 100000

/-!
Verification development for the WebRTC leak-test client
(`src/webrtc-leak-demo-js/script.js`).  The JavaScript source is shallowly
embedded: regular expressions become an executable backtracking matcher with
the ECMAScript semantics the code relies on (leftmost match, ordered
alternation, greedy bounded repetition, word boundaries, lookahead), JS
values that matter for truthiness become an inductive `JVal`, and the
asynchronous pipeline of `runLeakTest` becomes a pure function of an
explicit environment.
-/

/-- A JavaScript value, restricted to the shapes the script manipulates.
`undef` models `undefined` (an absent object property). Numbers are modelled
as integers; the only numeric geo payloads the claims touch are integral. -/
inductive JVal : Type
  | undef : JVal
  | null : JVal
  | bool : Bool → JVal
  | num : Int → JVal
  | str : String → JVal
deriving DecidableEq, Repr

/-- JS truthiness for `JVal` (`undefined`, `null`, `false`, `0`, `""` are falsy). -/
def truthy : JVal → Bool
  | .undef => false
  | .null => false
  | .bool b => b
  | .num n => !(n == 0)
  | .str s => !(s == "")

/-- The JS `a || b` operator on values: `a` when truthy, else `b`. -/
def jOr (a b : JVal) : JVal := if truthy a then a else b

/-- Template-literal rendering of a `JVal`, as in `${geo.country}`. -/
def jshow : JVal → String
  | .undef => "undefined"
  | .null => "null"
  | .bool true => "true"
  | .bool false => "false"
  | .num n => toString n
  | .str s => s

/-- Numeric value of a list of decimal digit characters. -/
def digitsVal (ds : List Char) : Nat :=
  ds.foldl (fun a c => a * 10 + (c.toNat - '0'.toNat)) 0

/-- JS `parseInt(s, 10)`: skip leading whitespace, optional sign, then the
longest prefix of decimal digits; `none` models `NaN`. -/
def parseIntJS (s : String) : Option Int :=
  let t := s.data.dropWhile (fun c => c.isWhitespace)
  let signAndRest : Bool × List Char :=
    match t with
    | '-' :: r => (true, r)
    | '+' :: r => (false, r)
    | r => (false, r)
  let ds := signAndRest.2.takeWhile (fun c => c.isDigit)
  if ds.isEmpty then none
  else some ((if signAndRest.1 then (-1 : Int) else 1) * (digitsVal ds : Int))

/-- Boolean list-prefix test (used for JS `String.startsWith`). -/
def isPre : List Char → List Char → Bool
  | [], _ => true
  | _ :: _, [] => false
  | a :: as, b :: bs => a == b && isPre as bs

/-- Boolean substring test (used for JS `String.includes`). -/
def hasSub (needle : List Char) : List Char → Bool
  | [] => needle.isEmpty
  | c :: rest => isPre needle (c :: rest) || hasSub needle rest

/-- JS `s.startsWith(p)`. -/
def jsStartsWith (s p : String) : Bool := isPre p.data s.data

/-- JS `s.toLowerCase()` (structural recursion, so that proofs can compute). -/
def jsToLower (s : String) : String := String.mk (s.data.map Char.toLower)

/-- Splitting on `.` with an accumulator for the current field (reversed). -/
def splitDotsAux : List Char → List Char → List String
  | [], acc => [String.mk acc.reverse]
  | c :: rest, acc =>
    if c == '.' then String.mk acc.reverse :: splitDotsAux rest []
    else splitDotsAux rest (c :: acc)

/-- JS `s.split(".")`. -/
def jsSplitDots (s : String) : List String := splitDotsAux s.data []

/-! ## A backtracking matcher with ECMAScript regular-expression semantics -/

/-- Regular-expression abstract grammar: character classes, concatenation, ordered
alternation, greedy bounded repetition `{lo,hi}` (`hi = none` means
unbounded), positive lookahead `(?=...)`, and the word boundary `\b`. -/
inductive RE : Type
  | eps : RE
  | cls : (Char → Bool) → RE
  | seq : RE → RE → RE
  | alt : RE → RE → RE
  | rep : RE → Nat → Option Nat → RE
  | look : RE → RE
  | wb : RE

/-- A match outcome: the character preceding the current position (for `\b`)
and the remaining input. -/
abbrev MRes := Option (Option Char × List Char)

/-- ECMAScript word characters (`\w`): letters, digits, underscore. -/
def wordChar (c : Char) : Bool :=
  c.isAlpha || c.isDigit || c == '_'

/-- Word boundary between an optional previous and next character. -/
def wordBoundary (prev next : Option Char) : Bool :=
  (match prev with | some c => wordChar c | none => false) !=
  (match next with | some c => wordChar c | none => false)

/-- The matcher, in continuation-passing style so that ordered alternation and
greedy repetition backtrack exactly as a JS engine does.  `fuel` bounds the
recursion depth; it is chosen generously by the callers below, and every
repetition body in the regexes of this development consumes at least one
character, so the bound is never the deciding factor on their inputs. -/
def reRun : Nat → RE → Option Char → List Char → (Option Char → List Char → MRes) → MRes
  | 0, _, _, _, _ => none
  | fuel + 1, r, prev, s, k =>
    match r with
    | .eps => k prev s
    | .cls p =>
      match s with
      | [] => none
      | c :: rest => if p c then k (some c) rest else none
    | .seq a b => reRun fuel a prev s (fun p2 s2 => reRun fuel b p2 s2 k)
    | .alt a b =>
      match reRun fuel a prev s k with
      | some res => some res
      | none => reRun fuel b prev s k
    | .look a =>
      match reRun fuel a prev s (fun p2 s2 => some (p2, s2)) with
      | some _ => k prev s
      | none => none
    | .wb => if wordBoundary prev s.head? then k prev s else none
    | .rep a lo hi =>
      match lo with
      | m + 1 =>
        reRun fuel a prev s (fun p2 s2 => reRun fuel (.rep a m (hi.map (· - 1))) p2 s2 k)
      | 0 =>
        match hi with
        | some 0 => k prev s
        | _ =>
          match reRun fuel a prev s (fun p2 s2 => reRun fuel (.rep a 0 (hi.map (· - 1))) p2 s2 k) with
          | some res => some res
          | none => k prev s

/-- Search for a match starting at the current or any later position
(the semantics of JS `RegExp.prototype.test`). -/
def searchFrom (fuel : Nat) (r : RE) : Option Char → List Char → Bool
  | prev, s =>
    match reRun fuel r prev s (fun p2 s2 => some (p2, s2)) with
    | some _ => true
    | none =>
      match s with
      | [] => false
      | c :: rest => searchFrom fuel r (some c) rest

/-- Recursion-depth budget for a given subject string. -/
def fuelFor (s : String) : Nat := 500 * (s.length + 5)

/-- JS `regex.test(str)` (stateless: the script resets `lastIndex` first). -/
def jsTest (r : RE) (s : String) : Bool := searchFrom (fuelFor s) r none s.data

/-- Anchored match of the entire string: the regex consumes every character.
This is what "the string is a literal of this form" means below. -/
def fullMatch (r : RE) (s : String) : Bool :=
  (reRun (fuelFor s) r none s.data
    (fun p2 s2 => if s2.isEmpty then some (p2, s2) else none)).isSome

/-- All matches in left-to-right order, as JS `str.match(re)` with the `g`
flag: find the leftmost match, continue after it (advancing one character
after an empty match), repeat. -/
def scanAll : Nat → Nat → RE → Option Char → List Char → List (List Char)
  | 0, _, _, _, _ => []
  | gas + 1, fuel, r, prev, s =>
    match reRun fuel r prev s (fun p2 s2 => some (p2, s2)) with
    | some (p2, rest) =>
      let n := s.length - rest.length
      if n == 0 then
        match s with
        | [] => []
        | c :: tail => scanAll gas fuel r (some c) tail
      else
        s.take n :: scanAll gas fuel r p2 rest
    | none =>
      match s with
      | [] => []
      | c :: tail => scanAll gas fuel r (some c) tail

/-! ## The regular expressions of `script.js`, transliterated -/

/-- A regex that never matches (empty alternation tail). -/
def reFail : RE := .cls (fun _ => false)

/-- Ordered alternation of a list of branches. -/
def alts (l : List RE) : RE := l.foldr RE.alt reFail

/-- Concatenation of a list of regexes. -/
def seqs (l : List RE) : RE := l.foldr RE.seq RE.eps

/-- A single literal character. -/
def chr (c : Char) : RE := .cls (fun x => x == c)

/-- A single literal character under the `i` flag. -/
def chrI (c : Char) : RE := .cls (fun x => x.toLower == c.toLower)

/-- A literal string. -/
def strLit (s : String) : RE := seqs (s.data.map chr)

/-- A literal string under the `i` flag. -/
def strLitI (s : String) : RE := seqs (s.data.map chrI)

/-- A literal string, case-insensitive when `ci` is set. -/
def lit (ci : Bool) (s : String) : RE := if ci then strLitI s else strLit s

/-- Character range class `[lo-hi]`. -/
def rng (lo hi : Char) : RE := .cls (fun c => decide (lo ≤ c) && decide (c ≤ hi))

/-- `[0-9]`. -/
def reDigit : RE := .cls (fun c => c.isDigit)

/-- `[0-9a-fA-F]`. -/
def hexDigit : RE :=
  .cls (fun c => c.isDigit || (decide ('a' ≤ c) && decide (c ≤ 'f')) ||
    (decide ('A' ≤ c) && decide (c ≤ 'F')))

/-- `\s`. -/
def wsp : RE := .cls (fun c => c.isWhitespace)

/-- `[0-9a-zA-Z]` (zone-id characters). -/
def zoneChar : RE :=
  .cls (fun c => c.isDigit || (decide ('a' ≤ c) && decide (c ≤ 'z')) ||
    (decide ('A' ≤ c) && decide (c ≤ 'Z')))

/-- `x?` (greedy). -/
def ropt (r : RE) : RE := .rep r 0 (some 1)

/-- IPv4 octet `(25[0-5]|2[0-4][0-9]|[01]?[0-9][0-9]?)` from `regexIPv4`. -/
def re_octet : RE := alts [
  seqs [chr '2', chr '5', rng '0' '5'],
  seqs [chr '2', rng '0' '4', reDigit],
  seqs [ropt (rng '0' '1'), reDigit, ropt reDigit]]

/-- `regexIPv4` (script.js line 3):
the source text is `\b((25[0-5]|2[0-4][0-9]|[01]?[0-9][0-9]?)\.){3}(25[0-5]|2[0-4][0-9]|[01]?[0-9][0-9]?)\b`. -/
def re_ipv4 : RE :=
  seqs [.wb, .rep (seqs [re_octet, chr '.']) 3 (some 3), re_octet, .wb]

/-- The octet form `(25[0-5]|(2[0-4]|1{0,1}[0-9]){0,1}[0-9])` used by the
IPv4-embedded branches of `regexIPv6`. -/
def re_embOctet : RE := alts [
  seqs [chr '2', chr '5', rng '0' '5'],
  seqs [ropt (alts [seqs [chr '2', rng '0' '4'], seqs [ropt (chr '1'), reDigit]]), reDigit]]

/-- The embedded dotted quad `((embOctet)\.){3,3}(embOctet)` of `regexIPv6`. -/
def re_v4emb : RE :=
  seqs [.rep (seqs [re_embOctet, chr '.']) 3 (some 3), re_embOctet]

/-- `[0-9a-fA-F]{1,4}`. -/
def h14 : RE := .rep hexDigit 1 (some 4)

/-- `[0-9a-fA-F]{1,4}:`. -/
def hcol : RE := seqs [h14, chr ':']

/-- `:[0-9a-fA-F]{1,4}`. -/
def colh : RE := seqs [chr ':', h14]

/-- The big alternation inside `regexIPv6` (script.js line 5), branch by
branch in source order; `ci` is the `i` flag (set on `regexIPv6` itself,
absent on the combined extraction regex built from its `source`). -/
def re_ipv6core (ci : Bool) : RE := alts [
  seqs [.rep hcol 7 (some 7), h14],
  seqs [.rep hcol 1 (some 7), chr ':'],
  seqs [.rep hcol 1 (some 6), colh],
  seqs [.rep hcol 1 (some 5), .rep colh 1 (some 2)],
  seqs [.rep hcol 1 (some 4), .rep colh 1 (some 3)],
  seqs [.rep hcol 1 (some 3), .rep colh 1 (some 4)],
  seqs [.rep hcol 1 (some 2), .rep colh 1 (some 5)],
  seqs [hcol, .rep colh 1 (some 6)],
  seqs [chr ':', alts [.rep colh 1 (some 7), chr ':']],
  seqs [lit ci "fe80:", .rep (seqs [chr ':', .rep hexDigit 0 (some 4)]) 0 (some 4),
    chr '%', .rep zoneChar 1 none],
  seqs [strLit "::", ropt (seqs [lit ci "ffff", ropt (seqs [chr ':', .rep (chr '0') 1 (some 4)]), chr ':']),
    re_v4emb],
  seqs [.rep hcol 1 (some 4), chr ':', re_v4emb]]

/-- `regexIPv6`: the alternation followed by the lookahead `(?=\s|\b)`. -/
def re_ipv6 (ci : Bool) : RE := seqs [re_ipv6core ci, .look (alts [wsp, .wb])]

/-- The combined extraction regex of the candidate handler (script.js
line 113): `new RegExp(regexIPv4.source + "|" + regexIPv6.source, "g")` —
note it carries only the `g` flag, so it is case-sensitive. -/
def re_combined : RE := .alt re_ipv4 (re_ipv6 false)

/-- JS `candidate.match(combined)` with the `g` flag, as a list of strings. -/
def extractIPs (s : String) : List String :=
  (scanAll (s.length + 2) (fuelFor s) re_combined none s.data).map String.mk

/-! ## The address classifier `isPrivateIP` (script.js lines 67-81) -/

/-- JS `x === n` where `x` is an array slot holding a `parseInt` result
(`none` is `NaN`/`undefined`, never strictly equal to a number). -/
def jsStrictEq (x : Option Int) (n : Int) : Bool := x == some n

/-- JS `x >= n` (false on `NaN`/`undefined`). -/
def jsGe (x : Option Int) (n : Int) : Bool :=
  match x with
  | some v => decide (n ≤ v)
  | none => false

/-- JS `x <= n` (false on `NaN`/`undefined`). -/
def jsLe (x : Option Int) (n : Int) : Bool :=
  match x with
  | some v => decide (v ≤ n)
  | none => false

/-- `isPrivateIP` (script.js lines 67-81): if `regexIPv4.test(ip)` then split
on dots, `parseInt` each part and test the private IPv4 ranges; else if
`regexIPv6.test(ip)` then test the lowercased `fc`/`fd` prefixes; else false. -/
def isPrivateIP (ip : String) : Bool :=
  if jsTest re_ipv4 ip then
    let parts : List (Option Int) := (jsSplitDots ip).map (fun part => parseIntJS part)
    jsStrictEq (parts.getD 0 none) 10 ||
      (jsStrictEq (parts.getD 0 none) 172 && jsGe (parts.getD 1 none) 16 && jsLe (parts.getD 1 none) 31) ||
      (jsStrictEq (parts.getD 0 none) 192 && jsStrictEq (parts.getD 1 none) 168)
  else if jsTest (re_ipv6 true) ip then
    jsStartsWith (jsToLower ip) "fc" || jsStartsWith (jsToLower ip) "fd"
  else false

/-- Second octet between 16 and 31 inclusive, as the spec words it. -/
def betweenInclusive (x : Option Int) (lo hi : Int) : Bool :=
  match x with
  | some v => decide (lo ≤ v ∧ v ≤ hi)
  | none => false

/-- Modelled from the spec (section 4.3 / C1): the classification policy as
literally stated — an IPv4 literal is private iff its first octet is 10, or
172 with second octet in [16,31], or 192 with second octet 168; an IPv6
literal is private iff its first two characters, case-insensitively, are
`fc` or `fd`; anything else is not private.  A literal is a string the
corresponding source regex matches in full. -/
def classifierPolicy (ip : String) : Bool :=
  if fullMatch re_ipv4 ip then
    let o1 := parseIntJS ((jsSplitDots ip).getD 0 "")
    let o2 := parseIntJS ((jsSplitDots ip).getD 1 "")
    jsStrictEq o1 10 || (jsStrictEq o1 172 && betweenInclusive o2 16 31) ||
      (jsStrictEq o1 192 && jsStrictEq o2 168)
  else if fullMatch (re_ipv6 true) ip then
    isPre ['f', 'c'] (jsToLower ip).data || isPre ['f', 'd'] (jsToLower ip).data
  else false

/-- Modelled from the spec, amended (C1): same policy, but with the branch
precedence the code actually has — any string in which the IPv4 regex finds
a match anywhere is classified through the IPv4 rules applied to the
`parseInt` of its first two dot-separated fields, and only strings without
such an embedded match fall through to the IPv6 prefix rule. -/
def classifierPolicyAmended (ip : String) : Bool :=
  if jsTest re_ipv4 ip then
    let o1 := parseIntJS ((jsSplitDots ip).getD 0 "")
    let o2 := parseIntJS ((jsSplitDots ip).getD 1 "")
    jsStrictEq o1 10 || (jsStrictEq o1 172 && betweenInclusive o2 16 31) ||
      (jsStrictEq o1 192 && jsStrictEq o2 168)
  else if jsTest (re_ipv6 true) ip then
    isPre ['f', 'c'] (jsToLower ip).data || isPre ['f', 'd'] (jsToLower ip).data
  else false

/-! ## The geo lookup `getGeoData` (script.js lines 36-60) -/

/-- The JSON payload of a successful `ipapi.co` response; an absent field is
`undef`, exactly like a missing JSON key read from a JS object. -/
structure GeoApi where
  country_name : JVal := .undef
  city : JVal := .undef
  postal : JVal := .undef
  timezone : JVal := .undef
  latitude : JVal := .undef
  longitude : JVal := .undef
  hosting : JVal := .undef
  org : JVal := .undef
  asn : JVal := .undef
deriving DecidableEq, Repr

/-- Outcome of the `fetch` in `getGeoData`: a network error or malformed
payload (both land in the `catch` with a message), a non-ok HTTP status with
its body text, or a parsed payload. -/
inductive FetchResult : Type
  | netErr : String → FetchResult
  | httpErr : Nat → String → FetchResult
  | ok : GeoApi → FetchResult
deriving DecidableEq, Repr

/-- The object `getGeoData` resolves with.  On the error paths the code
returns `{ error: ... }` only, so every data field is `undef` there, exactly
as in the JS object. -/
structure GeoRecord where
  country : JVal := .undef
  city : JVal := .undef
  postal_code : JVal := .undef
  time_zone : JVal := .undef
  latitude : JVal := .undef
  longitude : JVal := .undef
  isVPN : JVal := .undef
  org : JVal := .undef
  asn : JVal := .undef
  error : JVal := .undef
deriving DecidableEq, Repr

/-- `getGeoData` (script.js lines 36-60) as a function of the fetch outcome. -/
def getGeoData (ip : String) : FetchResult → GeoRecord
  | .netErr msg => { error := .str ("Error fetching GeoIP: " ++ msg) }
  | .httpErr status body =>
    { error := .str ("Failed to fetch GeoIP for " ++ ip ++ ". Status: " ++ toString status ++
        ". Details: " ++ body) }
  | .ok d =>
    { country := jOr d.country_name (.str "Unknown"),
      city := jOr d.city (.str "Unknown"),
      postal_code := jOr d.postal (.str "Unknown"),
      time_zone := jOr d.timezone (.str "Unknown"),
      latitude := jOr d.latitude (.str "Unknown"),
      longitude := jOr d.longitude (.str "Unknown"),
      isVPN := jOr d.hosting (.bool false),
      org := jOr d.org (.str "Unknown"),
      asn := jOr d.asn (.str "Unknown"),
      error := .undef }

/-! ## The collection-and-report pipeline `runLeakTest` (script.js lines 88-325) -/

/-- The leftmost match of `/typ ([a-z]+)/`: the capture group, greedy. -/
def typCapture : List Char → Option (List Char)
  | 't' :: 'y' :: 'p' :: ' ' :: rest =>
    let t := rest.takeWhile (fun c => decide ('a' ≤ c) && decide (c ≤ 'z'))
    if t.isEmpty then none else some t
  | _ => none

/-- Scan for the leftmost `/typ ([a-z]+)/` match. -/
def typMatch : List Char → Option (List Char)
  | [] => none
  | c :: rest =>
    match typCapture (c :: rest) with
    | some t => some t
    | none => typMatch rest

/-- `[a-f0-9-]`, the character class of the mDNS hostname regex. -/
def hostChar (c : Char) : Bool :=
  (decide ('a' ≤ c) && decide (c ≤ 'f')) || c.isDigit || c == '-'

/-- Match of `/([a-f0-9-]+\.local)/` at the current position.  The class
excludes `.`, so the greedy run can only be followed by `.local` in full. -/
def hostCapture (s : List Char) : Option (List Char) :=
  let run := s.takeWhile hostChar
  if run.isEmpty then none
  else if isPre ".local".data (s.drop run.length) then some (run ++ ".local".data)
  else none

/-- Scan for the leftmost `/([a-f0-9-]+\.local)/` match. -/
def hostMatch : List Char → Option (List Char)
  | [] => none
  | c :: rest =>
    match hostCapture (c :: rest) with
    | some h => some h
    | none => hostMatch rest

/-- JS `Set` insertion: append when unseen, no-op when already present. -/
def addUnique (l : List String) (x : String) : List String :=
  if x ∈ l then l else l ++ [x]

/-- The run-scoped mutable state of the collection window. -/
structure Collected where
  ips : List String
  tally : List (String × Nat)
  hostnames : List String
deriving DecidableEq, Repr

/-- The three counters set to zero on script.js line 91. -/
def initCollected : Collected :=
  { ips := [], tally := [("host", 0), ("srflx", 0), ("relay", 0)], hostnames := [] }

/-- JS `obj[k] = (obj[k] || 0) + 1` on an insertion-ordered object. -/
def bump : List (String × Nat) → String → List (String × Nat)
  | [], k => [(k, 1)]
  | (k2, v) :: rest, k => if k == k2 then (k2, v + 1) :: rest else (k2, v) :: bump rest k

/-- One `onicecandidate` event (script.js lines 94-121): a falsy candidate
string is ignored; otherwise the type tally, the mDNS hostname set and the
unique-IP set are updated. -/
def processCandidate (st : Collected) (c : String) : Collected :=
  if c = "" then st
  else
    { ips := (extractIPs c).foldl addUnique st.ips,
      tally :=
        match typMatch c.data with
        | some t => bump st.tally (String.mk t)
        | none => st.tally,
      hostnames :=
        if hasSub ".local ".data c.data then
          match hostMatch c.data with
          | some h => addUnique st.hostnames (String.mk h)
          | none => st.hostnames
        else st.hostnames }

/-- The collection window: every delivered candidate event in order. -/
def collectFrom (cands : List String) : Collected :=
  cands.foldl processCandidate initCollected

/-- `JSON.stringify` of the tally object (string keys, insertion order). -/
def tallyString (t : List (String × Nat)) : String :=
  "\x7b" ++ String.intercalate "," (t.map (fun p => "\"" ++ p.1 ++ "\":" ++ toString p.2)) ++ "\x7d"

/-- The environment a run of `runLeakTest` observes: platform capability,
the candidate events of the window, the primary-public-IP fetch outcome
(`none` when it threw), the per-address geo fetch outcome, and the uninterpreted
header/fingerprint inputs. -/
structure Env where
  rtcSupported : Bool
  candidates : List String
  primaryFetch : Option String
  geo : String → FetchResult
  userAgent : String
  localTime : String
  fingerprintJson : String

/-- `primaryPublicIp` (script.js lines 163-170): the fetched value, or the
sentinel `"Unknown"` when the lookup threw. -/
def primaryPublicIp (env : Env) : String := env.primaryFetch.getD "Unknown"

/-- `allUniqueIps` (script.js line 272): primary first, then the leaked set,
filtered of falsy and `"Unknown"` entries, deduplicated in order. -/
def allUniqueIps (env : Env) : List String :=
  ((primaryPublicIp env :: (collectFrom env.candidates).ips).filter
    (fun ip => !(ip == "") && !(ip == "Unknown"))).foldl addUnique []

/-- `geoResults` (script.js lines 273-274): one settled lookup per unique
address, in order, each tagged with its address. -/
def geoResults (env : Env) : List (String × GeoRecord) :=
  (allUniqueIps env).map (fun ip => (ip, getGeoData ip (env.geo ip)))

/-- One per-address block of the report (script.js lines 298-316). -/
structure Block where
  ip : String
  label : String
  text : String
deriving DecidableEq, Repr

/-- Build the block for one geo result, with the classification of
script.js lines 299-304 and the body of lines 306-315. -/
def mkBlock (primary : String) (p : String × GeoRecord) : Block :=
  let label :=
    if p.1 = primary then "Public (Primary)"
    else if isPrivateIP p.1 then "Local (Private)"
    else "Leaked"
  { ip := p.1,
    label := label,
    text := "IP: " ++ p.1 ++ "\n  - Type: " ++ label ++ "\n" ++
      (if truthy p.2.isVPN then "  - Note: This IP may be a VPN/Proxy.\n" else "") ++
      "  - Country: " ++ jshow p.2.country ++ "\n" ++
      "  - City: " ++ jshow p.2.city ++ "\n" ++
      "  - Postal Code: " ++ jshow p.2.postal_code ++ "\n" ++
      "  - Time Zone: " ++ jshow p.2.time_zone ++ "\n" ++
      "  - Coordinates: " ++ jshow p.2.latitude ++ ", " ++ jshow p.2.longitude ++ "\n\n" }

/-- All per-address blocks of the report, in `geoResults` order. -/
def blocks (env : Env) : List Block :=
  (geoResults env).map (mkBlock (primaryPublicIp env))

/-- The full `logContent` (script.js lines 288-319). -/
def logContent (env : Env) : String :=
  "--- New Client Entry: " ++ env.localTime ++ " (Local Time) ---\n" ++
  "User Agent: " ++ env.userAgent ++ "\n\n" ++
  "--- WebRTC Information ---\n" ++
  "ICE Candidate Types: " ++ tallyString (collectFrom env.candidates).tally ++ "\n" ++
  (if (collectFrom env.candidates).hostnames.length > 0 then
    "mDNS Hostnames: " ++ String.intercalate ", " (collectFrom env.candidates).hostnames ++ "\n"
  else "") ++
  "\n--- IP Information ---\n" ++
  String.join ((blocks env).map Block.text) ++
  "--- Browser Fingerprint ---\n" ++ env.fingerprintJson

/-- The payloads handed to `logToServer` over one invocation of
`runLeakTest`: the minimal failure report when the RTC capability is absent
(script.js lines 125-129), otherwise the single final report (line 322). -/
def sinkCalls (env : Env) : List String :=
  if env.rtcSupported then [logContent env]
  else ["WebRTC is not supported by this browser."]

/-- The addresses for which a geo lookup is issued during the run. -/
def lookups (env : Env) : List String :=
  if env.rtcSupported then allUniqueIps env else []

/-! ## Concrete environments used by the claim theorems -/

/-- The end-to-end scenario of spec section 8: primary `8.8.8.8`, one
`srflx` candidate carrying `203.0.113.9`, one `host` candidate carrying
`192.168.1.5`; geo lookups all fail (their contents are irrelevant here). -/
def envScenario : Env :=
  { rtcSupported := true,
    candidates := ["candidate:2 1 UDP 1686052607 203.0.113.9 54321 typ srflx",
      "candidate:1 1 UDP 2122260223 192.168.1.5 54321 typ host"],
    primaryFetch := some "8.8.8.8",
    geo := fun _ => .netErr "injected",
    userAgent := "UA", localTime := "T", fingerprintJson := "FP" }

/-- A run with one candidate and a distinguishable geo oracle. -/
def envPipe : Env :=
  { rtcSupported := true,
    candidates := ["candidate:1 1 UDP 2122260223 192.168.1.5 54321 typ host"],
    primaryFetch := some "8.8.8.8",
    geo := fun _ => .ok {},
    userAgent := "UA", localTime := "T", fingerprintJson := "FP" }

/-- A geo oracle that fails exactly on `192.168.1.5`. -/
def geoFailOne : String → FetchResult :=
  fun ip => if ip == "192.168.1.5" then .netErr "injected" else .ok {}

/-- A run with zero candidate events. -/
def envEmpty : Env :=
  { rtcSupported := true, candidates := [], primaryFetch := some "8.8.8.8",
    geo := fun _ => .netErr "down", userAgent := "UA", localTime := "T", fingerprintJson := "FP" }

/-- The same run without the real-time-communication capability. -/
def envNoRtc : Env := { envEmpty with rtcSupported := false }

/-- A run whose primary-public-address lookup threw. -/
def envNoPrimary : Env :=
  { rtcSupported := true, candidates := [], primaryFetch := none,
    geo := fun _ => .netErr "down", userAgent := "UA", localTime := "T", fingerprintJson := "FP" }

/-- A run in which a collected candidate equals the primary public address. -/
def envSelf : Env :=
  { rtcSupported := true,
    candidates := ["candidate:3 1 UDP 1686052607 8.8.8.8 3478 typ srflx"],
    primaryFetch := some "8.8.8.8",
    geo := fun _ => .netErr "down", userAgent := "UA", localTime := "T", fingerprintJson := "FP" }

/-- The candidate strings of the round-trip extraction property. -/
def candHost : String := "candidate:1 1 UDP 2122260223 192.168.1.5 54321 typ host"

/-- An IPv6 candidate string containing the literal `fc00::abcd`. -/
def candV6 : String := "candidate:2 1 UDP 2122260222 fc00::abcd 54321 typ host"

/-- A default block (used only to state witness facts via `getD`). -/
def defBlock : Block := { ip := "", label := "", text := "" }

/-! ## Helper lemmas -/

theorem jOr_pos (a b : JVal) (h : truthy a = true) : jOr a b = a := by
  simp [jOr, h]

theorem jOr_neg (a b : JVal) (h : truthy a = false) : jOr a b = b := by
  simp [jOr, h]

theorem jOr_cases (a b : JVal) :
    (truthy a = true → jOr a b = a) ∧ (truthy a = false → jOr a b = b) :=
  ⟨jOr_pos a b, jOr_neg a b⟩

theorem getD_map_parseIntJS (l : List String) (i : Nat) :
    (l.map (fun part => parseIntJS part)).getD i none = parseIntJS (l.getD i "") := by
  induction l generalizing i with
  | nil => cases i <;> rfl
  | cons a t ih => cases i with
    | zero => rfl
    | succ j => simpa using ih j

theorem jsRange_eq (x : Option Int) (lo hi : Int) :
    (jsGe x lo && jsLe x hi) = betweenInclusive x lo hi := by
  cases x <;> simp [jsGe, jsLe, betweenInclusive, Bool.decide_and]

theorem mem_addUnique (l : List String) (x y : String) :
    y ∈ addUnique l x ↔ y ∈ l ∨ y = x := by
  unfold addUnique
  split
  · next h =>
    constructor
    · exact fun hy => Or.inl hy
    · rintro (hy | rfl)
      · exact hy
      · exact h
  · next h =>
    simp

theorem nodup_addUnique (l : List String) (x : String) (h : l.Nodup) :
    (addUnique l x).Nodup := by
  unfold addUnique
  split
  · exact h
  · next hx => simp [List.nodup_append, h, hx]

theorem nodup_foldl_addUnique (xs l : List String) (h : l.Nodup) :
    (xs.foldl addUnique l).Nodup := by
  induction xs generalizing l with
  | nil => exact h
  | cons a as ih => exact ih _ (nodup_addUnique _ _ h)

theorem mem_foldl_addUnique (xs l : List String) (y : String) :
    y ∈ xs.foldl addUnique l ↔ y ∈ l ∨ y ∈ xs := by
  induction xs generalizing l with
  | nil => simp
  | cons a as ih =>
    simp only [List.foldl_cons, ih, mem_addUnique, List.mem_cons]
    tauto

theorem processCandidate_ips_nodup (st : Collected) (c : String) (h : st.ips.Nodup) :
    (processCandidate st c).ips.Nodup := by
  unfold processCandidate
  split
  · exact h
  · exact nodup_foldl_addUnique _ _ h

theorem foldl_processCandidate_ips_nodup (cands : List String) (st : Collected)
    (h : st.ips.Nodup) : ((cands.foldl processCandidate st).ips).Nodup := by
  induction cands generalizing st with
  | nil => exact h
  | cons c cs ih => exact ih _ (processCandidate_ips_nodup _ _ h)

theorem allUniqueIps_nodup (env : Env) : (allUniqueIps env).Nodup :=
  nodup_foldl_addUnique _ _ List.nodup_nil

theorem blocks_map_ip (env : Env) : (blocks env).map Block.ip = allUniqueIps env := by
  simp only [blocks, geoResults, List.map_map]
  exact List.map_id _

theorem unknown_not_mem_allUniqueIps (env : Env) : "Unknown" ∉ allUniqueIps env := by
  intro hmem
  rcases (mem_foldl_addUnique _ _ _).1 hmem with h | h
  · simp at h
  · have := List.of_mem_filter h
    simp at this

theorem geoResults_filter_congr (l : List String) (f g : String → FetchResult) (a : String)
    (h : ∀ x, x ≠ a → f x = g x) :
    ((l.map fun ip => (ip, getGeoData ip (f ip))).filter fun p => !(p.1 == a)) =
      ((l.map fun ip => (ip, getGeoData ip (g ip))).filter fun p => !(p.1 == a)) := by
  induction l with
  | nil => rfl
  | cons ip t ih =>
    by_cases hia : ip = a
    · subst hia
      simp only [List.map_cons, List.filter_cons]
      simp [ih]
    · simp only [List.map_cons, List.filter_cons, h ip hia]
      simp [ih]

/-! ## Claim theorems -/

/-- C1, counterexample: `fd00::10.0.0.1` is an IPv6 literal (the IPv6 regex
matches it in full) whose first two characters are `fd`, so the stated
policy classifies it private, yet `isPrivateIP` returns false: the embedded
dotted quad makes `regexIPv4.test` succeed, and `parseInt("fd00::10")` is
`NaN`, so every IPv4 range test fails. -/
theorem C1_policy_counterexample :
    fullMatch (re_ipv6 true) "fd00::10.0.0.1" = true ∧
    isPre ['f', 'd'] (jsToLower "fd00::10.0.0.1").data = true ∧
    classifierPolicy "fd00::10.0.0.1" = true ∧
    isPrivateIP "fd00::10.0.0.1" = false :=
  ⟨by decide, by decide, by decide, by decide⟩

/-- C1, amended: `isPrivateIP` agrees everywhere with the classification
policy amended with the branch precedence of the code — a string in which
the IPv4 regex finds a match anywhere is judged by the IPv4 range rules on
the `parseInt` of its first two dot-separated fields, and only otherwise by
the IPv6 `fc`/`fd` prefix rule — and the boundary table holds as stated. -/
theorem C1_classifier_policy :
    (∀ ip : String, isPrivateIP ip = classifierPolicyAmended ip) ∧
    isPrivateIP "10.0.0.1" = true ∧ isPrivateIP "172.16.0.0" = true ∧
    isPrivateIP "192.168.0.1" = true ∧ isPrivateIP "fc00::1" = true ∧
    isPrivateIP "fd12::1" = true ∧ isPrivateIP "172.32.0.0" = false ∧
    isPrivateIP "193.168.0.1" = false ∧ isPrivateIP "fe80::1" = false := by
  refine ⟨?_, by decide, by decide, by decide, by decide, by decide, by decide, by decide, by decide⟩
  intro ip
  unfold isPrivateIP classifierPolicyAmended
  simp only [getD_map_parseIntJS]
  rw [Bool.and_assoc, jsRange_eq]
  rfl

/-- C6, counterexample: the candidate string containing `fc00::abcd` does
not yield that literal — the combined regex stops at the double colon
(the `(h\x7b1,4\x7d:)\x7b1,7\x7d:` alternative matches `fc00::` and the
trailing `(?=\s|\b)` lookahead is already satisfied before the `a`). -/
theorem C6_extraction_counterexample :
    hasSub "fc00::abcd".data candV6.data = true ∧
    extractIPs candV6 = ["fc00::"] ∧
    extractIPs candV6 ≠ ["fc00::abcd"] :=
  ⟨by decide, by decide, by decide⟩

/-- C6, amended: extraction from the `host` candidate string yields exactly
`192.168.1.5` with type label `host`; extraction from the IPv6 candidate
string containing `fc00::abcd` yields exactly the truncated literal
`fc00::`. -/
theorem C6_extraction_roundtrip :
    extractIPs candHost = ["192.168.1.5"] ∧
    typMatch candHost.data = some "host".data ∧
    extractIPs candV6 = ["fc00::"] :=
  ⟨by decide, by decide, by decide⟩

/-- C5: over every sequence of candidate events the unique-address set
holds no literal twice, and inserting an already-seen literal is a no-op. -/
theorem C5_unique_addresses :
    (∀ cands : List String, ((collectFrom cands).ips).Nodup) ∧
    ∀ (l : List String) (x : String), x ∈ l → addUnique l x = l := by
  constructor
  · intro cands
    exact foldl_processCandidate_ips_nodup cands initCollected (by simp [initCollected])
  · intro l x h
    simp [addUnique, h]

/-- C5 witness: a concrete repeated candidate event still yields a
duplicate-free set, and re-adding a seen literal is a no-op. -/
theorem C5_unique_addresses_witness :
    ("192.168.1.5" ∈ (["192.168.1.5"] : List String)) ∧
    addUnique ["192.168.1.5"] "192.168.1.5" = ["192.168.1.5"] ∧
    ((collectFrom [candHost, candHost]).ips).Nodup :=
  ⟨by decide, C5_unique_addresses.2 ["192.168.1.5"] "192.168.1.5" (by decide),
    C5_unique_addresses.1 [candHost, candHost]⟩

/-- C8: the classification labels never depend on geo lookup contents — two
runs over the same environment that differ only in the geo oracle assign
identical labels to identical addresses. -/
theorem C8_labels_geo_independent (env : Env) (f g : String → FetchResult) :
    ((blocks { env with geo := f }).map fun b => (b.ip, b.label)) =
      ((blocks { env with geo := g }).map fun b => (b.ip, b.label)) := by
  simp only [blocks, geoResults, List.map_map]
  rfl

/-- C2, counterexample: the tally printed in the report also carries the
`relay` counter, which starts at zero,, so it is not `\x7b"host":1,"srflx":1\x7d`. -/
theorem C2_tally_counterexample :
    tallyString (collectFrom envScenario.candidates).tally =
      "\x7b\"host\":1,\"srflx\":1,\"relay\":0\x7d" ∧
    tallyString (collectFrom envScenario.candidates).tally ≠
      "\x7b\"host\":1,\"srflx\":1\x7d" :=
  ⟨by decide, by decide⟩

/-- C2, amended: every per-address block is labeled `Public (Primary)` iff
its address equals the primary public address, `Local (Private)` iff it
differs and `isPrivateIP` holds, and `Leaked` iff it differs and
`isPrivateIP` fails; in the end-to-end scenario the report has exactly the
three blocks `Public (Primary)`, `Leaked`, `Local (Private)` in that order,
and the printed tally is `\x7b"host":1,"srflx":1,"relay":0\x7d`. -/
theorem C2_report_blocks :
    (∀ env : Env, ∀ b ∈ blocks env,
      (b.label = "Public (Primary)" ↔ b.ip = primaryPublicIp env) ∧
      (b.label = "Local (Private)" ↔ (b.ip ≠ primaryPublicIp env ∧ isPrivateIP b.ip = true)) ∧
      (b.label = "Leaked" ↔ (b.ip ≠ primaryPublicIp env ∧ isPrivateIP b.ip = false))) ∧
    (blocks envScenario).map Block.ip = ["8.8.8.8", "203.0.113.9", "192.168.1.5"] ∧
    (blocks envScenario).map Block.label = ["Public (Primary)", "Leaked", "Local (Private)"] ∧
    (blocks envScenario).length = 3 ∧
    tallyString (collectFrom envScenario.candidates).tally =
      "\x7b\"host\":1,\"srflx\":1,\"relay\":0\x7d" := by
  refine ⟨?_, by decide, by decide, by decide, by decide⟩
  intro env b hb
  obtain ⟨p, hp, rfl⟩ := List.mem_map.1 hb
  by_cases h1 : p.1 = primaryPublicIp env
  · simp [mkBlock, h1]
  · by_cases h2 : isPrivateIP p.1
    · simp [mkBlock, h1, h2]
    · simp [mkBlock, h1, h2]

/-- C2 witness: the label characterization applied to the first block of
the scenario report. -/
theorem C2_report_blocks_witness :
    ((blocks envScenario).getD 0 defBlock).label = "Public (Primary)" :=
  (C2_report_blocks.1 envScenario ((blocks envScenario).getD 0 defBlock)
    (by decide)).1.mpr (by decide)

/-- C3, counterexample: a failed lookup leaves the data fields absent
(`undefined`), not at the `"Unknown"` sentinel; and a supplied-but-falsy
field (latitude 0) is replaced by `"Unknown"` rather than being carried
through unchanged. -/
theorem C3_geo_record_counterexample :
    (getGeoData "1.2.3.4" (.netErr "boom")).country = .undef ∧
    JVal.undef ≠ JVal.str "Unknown" ∧
    (getGeoData "1.2.3.4" (.ok { country_name := .str "Germany", latitude := .num 0 })).latitude
      = .str "Unknown" ∧
    JVal.str "Unknown" ≠ JVal.num 0 :=
  ⟨rfl, by decide, rfl, by decide⟩

/-- C3, amended: on a successful lookup every field the upstream supplies
with a truthy value is carried through unchanged, and a field falls back to
the `"Unknown"` sentinel (for `isVPN`, to `false`) exactly when the
supplied value is falsy or absent; on a failed lookup (network error or
malformed payload, or non-success status) the record consists solely of the
error annotation, its data fields being absent. -/
theorem C3_geo_record :
    ∀ (ip : String) (d : GeoApi),
      ((truthy d.country_name = true → (getGeoData ip (.ok d)).country = d.country_name) ∧
        (truthy d.country_name = false → (getGeoData ip (.ok d)).country = .str "Unknown")) ∧
      ((truthy d.city = true → (getGeoData ip (.ok d)).city = d.city) ∧
        (truthy d.city = false → (getGeoData ip (.ok d)).city = .str "Unknown")) ∧
      ((truthy d.postal = true → (getGeoData ip (.ok d)).postal_code = d.postal) ∧
        (truthy d.postal = false → (getGeoData ip (.ok d)).postal_code = .str "Unknown")) ∧
      ((truthy d.timezone = true → (getGeoData ip (.ok d)).time_zone = d.timezone) ∧
        (truthy d.timezone = false → (getGeoData ip (.ok d)).time_zone = .str "Unknown")) ∧
      ((truthy d.latitude = true → (getGeoData ip (.ok d)).latitude = d.latitude) ∧
        (truthy d.latitude = false → (getGeoData ip (.ok d)).latitude = .str "Unknown")) ∧
      ((truthy d.longitude = true → (getGeoData ip (.ok d)).longitude = d.longitude) ∧
        (truthy d.longitude = false → (getGeoData ip (.ok d)).longitude = .str "Unknown")) ∧
      ((truthy d.hosting = true → (getGeoData ip (.ok d)).isVPN = d.hosting) ∧
        (truthy d.hosting = false → (getGeoData ip (.ok d)).isVPN = .bool false)) ∧
      ((truthy d.org = true → (getGeoData ip (.ok d)).org = d.org) ∧
        (truthy d.org = false → (getGeoData ip (.ok d)).org = .str "Unknown")) ∧
      ((truthy d.asn = true → (getGeoData ip (.ok d)).asn = d.asn) ∧
        (truthy d.asn = false → (getGeoData ip (.ok d)).asn = .str "Unknown")) ∧
      (getGeoData ip (.ok d)).error = .undef ∧
      (∀ msg, getGeoData ip (.netErr msg) =
        { error := .str ("Error fetching GeoIP: " ++ msg) }) ∧
      (∀ st body, getGeoData ip (.httpErr st body) =
        { error := .str ("Failed to fetch GeoIP for " ++ ip ++ ". Status: " ++ toString st ++
            ". Details: " ++ body) }) := by
  intro ip d
  exact ⟨jOr_cases d.country_name (.str "Unknown"), jOr_cases d.city (.str "Unknown"),
    jOr_cases d.postal (.str "Unknown"), jOr_cases d.timezone (.str "Unknown"),
    jOr_cases d.latitude (.str "Unknown"), jOr_cases d.longitude (.str "Unknown"),
    jOr_cases d.hosting (.bool false), jOr_cases d.org (.str "Unknown"),
    jOr_cases d.asn (.str "Unknown"), rfl, fun msg => rfl, fun st body => rfl⟩

/-- C3 witness: a concrete payload with a truthy country and a falsy
latitude, run through the amended field contract. -/
theorem C3_geo_record_witness :
    truthy (JVal.str "Germany") = true ∧
    (getGeoData "1.2.3.4"
      (.ok { country_name := .str "Germany", latitude := .num 0 })).country = .str "Germany" ∧
    truthy (JVal.num 0) = false ∧
    (getGeoData "1.2.3.4"
      (.ok { country_name := .str "Germany", latitude := .num 0 })).latitude = .str "Unknown" :=
  ⟨by decide,
    (C3_geo_record "1.2.3.4" { country_name := .str "Germany", latitude := .num 0 }).1.1
      (by decide),
    by decide,
    (C3_geo_record "1.2.3.4"
      { country_name := .str "Germany", latitude := .num 0 }).2.2.2.2.1.2 (by decide)⟩

/-- C4: for a unique address set of size N the resolver issues exactly N
lookups — one settled record per address, in order, so the result mapping
has size exactly N — and failing the lookup of one address leaves every
other record unchanged. -/
theorem C4_geo_resolver :
    ∀ env : Env,
      (geoResults env).length = (allUniqueIps env).length ∧
      (geoResults env).map Prod.fst = allUniqueIps env ∧
      ∀ (f g : String → FetchResult) (a : String),
        (∀ x, x ≠ a → f x = g x) →
        ((geoResults { env with geo := f }).filter fun p => !(p.1 == a)) =
          ((geoResults { env with geo := g }).filter fun p => !(p.1 == a)) := by
  intro env
  refine ⟨by simp [geoResults], ?_, ?_⟩
  · simp only [geoResults, List.map_map]
    exact List.map_id _
  · intro f g a h
    exact geoResults_filter_congr (allUniqueIps env) f g a h

/-- C4 witness: failing the lookup of `192.168.1.5` leaves the record of
the other address intact, and the mapping keeps size equal to the unique
address set. -/
theorem C4_geo_resolver_witness :
    ((geoResults { envPipe with geo := fun _ => .ok {} }).filter
        fun p => !(p.1 == "192.168.1.5")) =
      ((geoResults { envPipe with geo := geoFailOne }).filter
        fun p => !(p.1 == "192.168.1.5")) ∧
    (geoResults envPipe).length = (allUniqueIps envPipe).length := by
  refine ⟨(C4_geo_resolver envPipe).2.2 (fun _ => .ok {}) geoFailOne "192.168.1.5" ?_,
    (C4_geo_resolver envPipe).1⟩
  intro x hx
  simp [geoFailOne, hx]

/-- C7: every invocation hands exactly one payload to the sink; without the
RTC capability it is the minimal failure report and no geo lookup is ever
issued; with the capability and zero candidate events the run still
terminates with the one report, whose IP section is exactly the
primary-public-address block. -/
theorem C7_single_report :
    ∀ env : Env,
      (sinkCalls env).length = 1 ∧
      (env.rtcSupported = false →
        sinkCalls env = ["WebRTC is not supported by this browser."] ∧ lookups env = []) ∧
      (env.rtcSupported = true → env.candidates = [] →
        ∀ p, env.primaryFetch = some p → p ≠ "" → p ≠ "Unknown" →
          sinkCalls env = [logContent env] ∧
          blocks env = [mkBlock p (p, getGeoData p (env.geo p))]) := by
  intro env
  refine ⟨?_, ?_, ?_⟩
  · cases h : env.rtcSupported <;> simp [sinkCalls, h]
  · intro h
    simp [sinkCalls, lookups, h]
  · intro hr hc p hp h1 h2
    have hpr : primaryPublicIp env = p := by simp [primaryPublicIp, hp]
    have hall : allUniqueIps env = [p] := by
      unfold allUniqueIps collectFrom
      rw [hc, hpr]
      simp [initCollected, h1, h2, addUnique]
    refine ⟨by simp [sinkCalls, hr], ?_⟩
    simp [blocks, geoResults, hall, hpr]

/-- C7 witness: the zero-candidate run and the capability-free run, at
concrete environments. -/
theorem C7_single_report_witness :
    (sinkCalls envEmpty).length = 1 ∧
    blocks envEmpty = [mkBlock "8.8.8.8" ("8.8.8.8", getGeoData "8.8.8.8" (envEmpty.geo "8.8.8.8"))] ∧
    sinkCalls envNoRtc = ["WebRTC is not supported by this browser."] ∧
    lookups envNoRtc = [] :=
  ⟨(C7_single_report envEmpty).1,
    ((C7_single_report envEmpty).2.2 rfl rfl "8.8.8.8" rfl (by decide) (by decide)).2,
    ((C7_single_report envNoRtc).2.1 rfl).1,
    ((C7_single_report envNoRtc).2.1 rfl).2⟩

/-- C9: when a collected candidate literal equals the primary public
address, the deduplicated address set counts it exactly once (so it is
resolved exactly once and yields exactly one block, the block list mapping
one-to-one onto the set), and every block carrying it is labeled
`Public (Primary)`. -/
theorem C9_primary_dedup :
    ∀ (env : Env) (p : String),
      env.primaryFetch = some p → p ≠ "" → p ≠ "Unknown" →
      p ∈ (collectFrom env.candidates).ips →
      (allUniqueIps env).count p = 1 ∧
      (blocks env).map Block.ip = allUniqueIps env ∧
      ∀ b ∈ blocks env, b.ip = p → b.label = "Public (Primary)" := by
  intro env p hp h1 h2 _hmem
  have hpr : primaryPublicIp env = p := by simp [primaryPublicIp, hp]
  have hmem2 : p ∈ allUniqueIps env := by
    apply (mem_foldl_addUnique _ _ _).2
    right
    apply List.mem_filter.2
    refine ⟨?_, ?_⟩
    · rw [hpr]
      exact List.mem_cons_self _ _
    · simp [h1, h2]
  refine ⟨List.count_eq_one_of_mem (allUniqueIps_nodup env) hmem2, blocks_map_ip env, ?_⟩
  intro b hb hip
  obtain ⟨q, hq, rfl⟩ := List.mem_map.1 hb
  obtain ⟨ipq, hipq, rfl⟩ := List.mem_map.1 hq
  have : ipq = p := hip
  simp [mkBlock, this, hpr]

/-- C9 witness: a run whose single candidate carries the primary address
`8.8.8.8` itself. -/
theorem C9_primary_dedup_witness :
    (allUniqueIps envSelf).count "8.8.8.8" = 1 ∧
    "8.8.8.8" ∈ (collectFrom envSelf.candidates).ips :=
  ⟨(C9_primary_dedup envSelf "8.8.8.8" rfl (by decide) (by decide) (by decide)).1, by decide⟩

/-- C10: the sentinel `"Unknown"` never survives the filter, so no geo
lookup is ever issued for it; when the primary lookup failed no block is
labeled `Public (Primary)`, and with zero candidates as well the IP section
of the report is empty. -/
theorem C10_unknown_primary :
    ∀ env : Env,
      ("Unknown" ∉ allUniqueIps env ∧ "Unknown" ∉ lookups env) ∧
      (env.primaryFetch = none →
        (∀ b ∈ blocks env, b.label ≠ "Public (Primary)") ∧
        (env.candidates = [] → blocks env = [])) := by
  intro env
  have hnm := unknown_not_mem_allUniqueIps env
  refine ⟨⟨hnm, ?_⟩, ?_⟩
  · unfold lookups
    split
    · exact hnm
    · simp
  · intro hp
    have hpr : primaryPublicIp env = "Unknown" := by simp [primaryPublicIp, hp]
    constructor
    · intro b hb
      obtain ⟨q, hq, rfl⟩ := List.mem_map.1 hb
      obtain ⟨ipq, hipq, rfl⟩ := List.mem_map.1 hq
      by_cases hque : ipq = "Unknown"
      · exact absurd (hque ▸ hipq) hnm
      · simp only [mkBlock, hpr]
        rw [if_neg hque]
        split <;> decide
    · intro hc
      have hall : allUniqueIps env = [] := by
        unfold allUniqueIps collectFrom
        rw [hc, hpr]
        rfl
      simp [blocks, geoResults, hall]

/-- C10 witness: a run whose primary lookup threw and which saw no
candidates. -/
theorem C10_unknown_primary_witness :
    ("Unknown" ∉ allUniqueIps envNoPrimary) ∧ blocks envNoPrimary = [] :=
  ⟨(C10_unknown_primary envNoPrimary).1.1,
    ((C10_unknown_primary envNoPrimary).2 rfl).2 rfl⟩
